import Mathlib

/-!
Verification of the ACTS examples reconstruction-pipeline configuration code
(`Examples/Python/python/acts/examples/reconstruction.py`, the `CI/physmon/physmon.py`
run script and `Examples/Python/tests/test_examples.py`) against its specification.

The Python functions `addSeeding`, `addCKFTracks`, `addVertexFitting` and
`addKalmanTracks` assemble a pipeline by appending stage objects (algorithms and
writers) to a sequencer.  We embed each of them as a pure function from its
arguments to the list of stage descriptors it appends, the filesystem/logging
effects it performs, and the Python exception (if any) that aborts it.
Each stage descriptor records the stage's class name, its kind, the
whiteboard keys it reads and writes (an empty-string key in the Python
configuration means "unset/optional" and is therefore dropped from the input
list), and an opaque payload holding the configuration arguments threaded into
the stage.  The pipeline engine itself (the C++ `Sequencer`) is not part of the
source tree; where a claim is about the engine, the engine is modelled from the
specification and marked as such.
-/

namespace ActsReco

inductive StageKind
  | reader
  | algorithm
  | writer
deriving DecidableEq, Repr

/-- A stage descriptor: class name, kind, whiteboard keys consumed and
produced, and an opaque payload of configuration arguments. -/
structure Stage where
  name : String
  kind : StageKind
  inputs : List String
  outputs : List String
  payload : List String
deriving DecidableEq, Repr

/-- Python exceptions observed by the assembly functions: an explicit
`raise RuntimeError(msg)`, or an unbound local/name reference. -/
inductive PyError
  | runtimeError (msg : String)
  | nameError (name : String)
deriving DecidableEq, Repr

/-- Side effects of an assembly call: directory creation, a fatal log
message, or a user warning. -/
inductive Effect
  | mkdir (path : String)
  | fatalLog (msg : String)
  | warn (msg : String)
deriving DecidableEq, Repr

/-- Result of one assembly call: the stages appended to the sequencer up to
the point of an error (if any), the effects performed, and the error. -/
structure CallResult where
  stages : List Stage
  effects : List Effect
  error : Option PyError
deriving DecidableEq, Repr

/-- The `SeedingAlgorithm` enumeration of `reconstruction.py`. -/
inductive SeedingAlgorithm
  | Default
  | TruthSmeared
  | TruthEstimated
  | Orthogonal
deriving DecidableEq, Repr

/-- Python is dynamically typed: the `seedingAlgorithm` argument may be any
value, not only a member of the enumeration.  A non-member falls through
every `==` test of the `if`/`elif` chain. -/
inductive SeedingAlgorithmArg
  | valid (a : SeedingAlgorithm)
  | invalid (repr : String)
deriving DecidableEq, Repr

/-- The `VertexFinder` enumeration of `reconstruction.py`. -/
inductive VertexFinder
  | Truth
  | AMVF
  | Iterative
deriving DecidableEq, Repr

/-- A `vertexFinder` argument value, possibly outside the enumeration. -/
inductive VertexFinderArg
  | valid (f : VertexFinder)
  | invalid (repr : String)
deriving DecidableEq, Repr

/-- Python `str(x)` on an optional path argument. -/
def strOfOpt : Option String → String
  | some p => p
  | none => "None"

/-- Drop empty keys: in the stage configurations an empty-string key means
the corresponding optional input is unset. -/
def nonEmptyKeys (ks : List String) : List String :=
  ks.filter (fun k => k != "")

/-- Is a `mkdir` among the effects? -/
def hasMkdir (effs : List Effect) : Bool :=
  effs.any (fun e =>
    match e with
    | Effect.mkdir _ => true
    | _ => false)

/-- Is the error a `RuntimeError`? -/
def isRuntimeError : Option PyError → Bool
  | some (PyError.runtimeError _) => true
  | _ => false

/-- The writer stages among a stage list. -/
def writersOf (stages : List Stage) : List Stage :=
  stages.filter (fun st => st.kind == StageKind.writer)

/-- The algorithm stages among a stage list. -/
def algorithmsOf (stages : List Stage) : List Stage :=
  stages.filter (fun st => st.kind == StageKind.algorithm)

/-- The stages of a list producing a given whiteboard key. -/
def producersOf (key : String) (stages : List Stage) : List Stage :=
  stages.filter (fun st => st.outputs.contains key)

/-- `addSeeding` of `reconstruction.py`.  Arguments (in order): the space-point
geometry selection file, the seeding algorithm selector, `truthSeedRanges`
(`none` models the Python `None`, `some cfg` a `TruthSeedRanges` value),
the particle-smearing sigmas (opaque), `seedfinderConfigArg` (opaque),
`trackParamsEstimationConfig` (opaque), `inputParticles`, `outputDirRoot`, and
whether that output directory already exists on disk.

Source behaviour embedded here:
* a `TruthSeedSelector` is added iff `truthSeedRanges is not None`;
* `seedingAlgorithm == TruthSmeared` adds a `ParticleSmearing` producing
  `"estimatedparameters"` and returns (no writers, no mkdir);
* otherwise a `SpacePointMaker` is added, then the inner `if`/`elif` chain
  adds the variant's finder; an unrecognised selector logs a fatal message and
  the subsequent `TrackParamsEstimationAlgorithm` construction raises
  `UnboundLocalError` on `inputSeeds`;
* the `TruthEstimated` branch and the writer block read
  `selAlg.config.inputMeasurementParticlesMap`, which raises
  `UnboundLocalError` on `selAlg` when `truthSeedRanges` was `None`;
* with `outputDirRoot` set, the directory is created if missing and the three
  performance writers are appended. -/
def addSeeding (geoSelectionConfigFile : Option String)
    (seedingAlgorithm : SeedingAlgorithmArg)
    (truthSeedRanges : Option String)
    (particleSmearingSigmas : String)
    (seedfinderConfigArg : String)
    (trackParamsEstimationConfig : String)
    (inputParticles : String)
    (outputDirRoot : Option String)
    (outputDirRootExists : Bool) : CallResult :=
  let selAlgStages : List Stage :=
    match truthSeedRanges with
    | some cfg =>
        [Stage.mk "TruthSeedSelector" StageKind.algorithm
          [inputParticles, "measurement_particles_map"]
          ["truth_seeds_selected"] [cfg]]
    | none => []
  let selectedParticles : String :=
    match truthSeedRanges with
    | some _ => "truth_seeds_selected"
    | none => inputParticles
  let selAlgBound : Bool := truthSeedRanges.isSome
  match seedingAlgorithm with
  | SeedingAlgorithmArg.valid SeedingAlgorithm.TruthSmeared =>
      CallResult.mk
        (selAlgStages ++
          [Stage.mk "ParticleSmearing" StageKind.algorithm
            [selectedParticles] ["estimatedparameters"] [particleSmearingSigmas]])
        [] none
  | _ =>
      let spAlg := Stage.mk "SpacePointMaker" StageKind.algorithm
        ["sourcelinks", "measurements"] ["spacepoints"]
        [strOfOpt geoSelectionConfigFile]
      let base := selAlgStages ++ [spAlg]
      let finish : List Stage → String → String → CallResult :=
        fun stages inputProtoTracks inputSeeds =>
          let parEst := Stage.mk "TrackParamsEstimationAlgorithm" StageKind.algorithm
            (nonEmptyKeys [inputSeeds, inputProtoTracks, "spacepoints", "sourcelinks"])
            ["estimatedparameters", "prototracks_estimated"]
            [trackParamsEstimationConfig]
          let stages := stages ++ [parEst]
          match outputDirRoot with
          | none => CallResult.mk stages [] none
          | some dir =>
              let mkEffs : List Effect :=
                if outputDirRootExists then [] else [Effect.mkdir dir]
              if selAlgBound then
                let w1 := Stage.mk "TrackFinderPerformanceWriter" StageKind.writer
                  [inputProtoTracks, selectedParticles, "measurement_particles_map"]
                  [] [dir ++ "/performance_seeding_trees.root"]
                let w2 := Stage.mk "SeedingPerformanceWriter" StageKind.writer
                  [inputProtoTracks, selectedParticles, "measurement_particles_map"]
                  [] [dir ++ "/performance_seeding_hists.root"]
                let w3 := Stage.mk "RootTrackParameterWriter" StageKind.writer
                  ["estimatedparameters", "prototracks_estimated", inputParticles,
                   "simhits", "measurement_particles_map", "measurement_simhits_map"]
                  [] [dir ++ "/estimatedparams.root"]
                CallResult.mk (stages ++ [w1, w2, w3]) mkEffs none
              else
                CallResult.mk stages mkEffs (some (PyError.nameError "selAlg"))
      match seedingAlgorithm with
      | SeedingAlgorithmArg.valid SeedingAlgorithm.TruthEstimated =>
          if selAlgBound then
            let ttf := Stage.mk "TruthTrackFinder" StageKind.algorithm
              [selectedParticles, "measurement_particles_map"] ["prototracks"] []
            finish (base ++ [ttf]) "prototracks" ""
          else
            CallResult.mk base [] (some (PyError.nameError "selAlg"))
      | SeedingAlgorithmArg.valid SeedingAlgorithm.Default =>
          let sa := Stage.mk "SeedingAlgorithm" StageKind.algorithm
            ["spacepoints"] ["seeds", "prototracks"] [seedfinderConfigArg]
          finish (base ++ [sa]) "prototracks" "seeds"
      | SeedingAlgorithmArg.valid SeedingAlgorithm.Orthogonal =>
          let sa := Stage.mk "SeedingOrthogonalAlgorithm" StageKind.algorithm
            ["spacepoints"] ["seeds", "prototracks"] [seedfinderConfigArg]
          finish (base ++ [sa]) "prototracks" "seeds"
      | _ =>
          CallResult.mk base [Effect.fatalLog "unknown seedingAlgorithm"]
            (some (PyError.nameError "inputSeeds"))

/-- The configuration of the `TrackFindingAlgorithm` (CKF) stage constructed by
`addCKFTracks`, with its named input/output keys. -/
structure TrackFindingConfig where
  inputMeasurements : String
  inputSourceLinks : String
  inputInitialTrackParameters : String
  outputTrajectories : String
  outputTrackParameters : String
deriving DecidableEq, Repr

/-- The CKF track-finder configuration literal from `addCKFTracks`. -/
def ckfTrackFinderConfig : TrackFindingConfig :=
  TrackFindingConfig.mk "measurements" "sourcelinks" "estimatedparameters"
    "trajectories" "fittedTrackParameters"

/-- The CKF track-finder stage built from `ckfTrackFinderConfig`. -/
def ckfTrackFinderStage : Stage :=
  Stage.mk "TrackFindingAlgorithm" StageKind.algorithm
    [ckfTrackFinderConfig.inputMeasurements, ckfTrackFinderConfig.inputSourceLinks,
     ckfTrackFinderConfig.inputInitialTrackParameters]
    [ckfTrackFinderConfig.outputTrajectories, ckfTrackFinderConfig.outputTrackParameters]
    []

/-- `addCKFTracks` of `reconstruction.py`.  Arguments: the opaque
`CKFPerformanceConfigArg` payload, `outputDirCsv` and whether it exists,
`outputDirRoot` and whether it exists, and `selectedParticles`
(default `"truth_seeds_selected"`).  The track finder is always added; with
`outputDirRoot` set the directory is created if missing and the three Root
writers are appended; with `outputDirCsv` set likewise for the CSV writer. -/
def addCKFTracks (ckfPerformanceConfigArg : String)
    (outputDirCsv : Option String) (outputDirCsvExists : Bool)
    (outputDirRoot : Option String) (outputDirRootExists : Bool)
    (selectedParticles : String) : CallResult :=
  let stages := [ckfTrackFinderStage]
  let rootPart : List Stage × List Effect :=
    match outputDirRoot with
    | none => ([], [])
    | some dir =>
        ([Stage.mk "RootTrajectoryStatesWriter" StageKind.writer
            ["trajectories", "particles_selected", "simhits",
             "measurement_particles_map", "measurement_simhits_map"]
            [] [dir ++ "/trackstates_ckf.root"],
          Stage.mk "RootTrajectorySummaryWriter" StageKind.writer
            ["trajectories", "particles_selected", "measurement_particles_map"]
            [] [dir ++ "/tracksummary_ckf.root"],
          Stage.mk "CKFPerformanceWriter" StageKind.writer
            [selectedParticles, "trajectories", "measurement_particles_map"]
            [] [ckfPerformanceConfigArg, dir ++ "/performance_ckf.root"]],
         if outputDirRootExists then [] else [Effect.mkdir dir])
  let csvPart : List Stage × List Effect :=
    match outputDirCsv with
    | none => ([], [])
    | some dir =>
        ([Stage.mk "CsvMultiTrajectoryWriter" StageKind.writer
            ["trajectories", "measurement_particles_map"] [] [dir]],
         if outputDirCsvExists then [] else [Effect.mkdir dir])
  CallResult.mk (stages ++ rootPart.1 ++ csvPart.1)
    (rootPart.2 ++ csvPart.2) none

/-- `addVertexFitting` of `reconstruction.py`.  Arguments: `outputDirRoot` and
whether it exists, `associatedParticles` (default `"particles_input"`),
`trackParameters` (default `"trackparameters"`), and the finder selector.
An invalid finder raises `RuntimeError("Invalid finder argument")` before any
stage is added.  With `outputDirRoot` set the directory is created if missing,
a warning is emitted when `associatedParticles == "particles_selected"`, and
the `RootVertexPerformanceWriter` is appended (its `inputTime` is the empty
string except for the AMVF finder, and an empty key is unset). -/
def addVertexFitting (outputDirRoot : Option String) (outputDirRootExists : Bool)
    (associatedParticles : String) (trackParameters : String)
    (vertexFinder : VertexFinderArg) : CallResult :=
  let finderPart : Option (List Stage × String) :=
    match vertexFinder with
    | VertexFinderArg.valid VertexFinder.Truth =>
        some ([Stage.mk "TruthVertexFinder" StageKind.algorithm
                 ["particles_selected"] ["protovertices"] [],
               Stage.mk "VertexFitterAlgorithm" StageKind.algorithm
                 [trackParameters, "protovertices"] ["fittedVertices"] []], "")
    | VertexFinderArg.valid VertexFinder.Iterative =>
        some ([Stage.mk "IterativeVertexFinderAlgorithm" StageKind.algorithm
                 [trackParameters] ["protovertices", "fittedVertices"] []], "")
    | VertexFinderArg.valid VertexFinder.AMVF =>
        some ([Stage.mk "AdaptiveMultiVertexFinderAlgorithm" StageKind.algorithm
                 [trackParameters] ["protovertices", "fittedVertices", "outputTime"] []],
              "outputTime")
    | VertexFinderArg.invalid _ => none
  match finderPart with
  | none => CallResult.mk [] [] (some (PyError.runtimeError "Invalid finder argument"))
  | some (finderStages, outputTime) =>
      match outputDirRoot with
      | none => CallResult.mk finderStages [] none
      | some dir =>
          let mkEffs : List Effect :=
            if outputDirRootExists then [] else [Effect.mkdir dir]
          let warnEffs : List Effect :=
            if associatedParticles == "particles_selected" then
              [Effect.warn "RootVertexPerformanceWriter with smeared particles"]
            else []
          let wr := Stage.mk "RootVertexPerformanceWriter" StageKind.writer
            (nonEmptyKeys ["particles_input", "particles_selected",
               associatedParticles, trackParameters, "fittedVertices", outputTime])
            [] [dir ++ "/performance_vertexing.root"]
          CallResult.mk (finderStages ++ [wr]) (mkEffs ++ warnEffs) none

/-- `addKalmanTracks` of `reconstruction.py`.  The truth track finder is added
first; with `directNavigation=True` the `SurfaceSortingAlgorithm` construction
references the unbound names `outputSimHits` and `digiAlg` and raises
`NameError` (on `outputSimHits`, the first one evaluated) before that stage is
added; with `directNavigation=False` the fitting algorithm is added. -/
def addKalmanTracks (directNavigation : Bool) : CallResult :=
  let ttf := Stage.mk "TruthTrackFinder" StageKind.algorithm
    ["truth_seeds_selected", "measurement_particles_map"] ["prototracks"] []
  if directNavigation then
    CallResult.mk [ttf] [] (some (PyError.nameError "outputSimHits"))
  else
    let fit := Stage.mk "TrackFittingAlgorithm" StageKind.algorithm
      ["measurements", "sourcelinks", "prototracks", "estimatedparameters"]
      ["trajectories"] []
    CallResult.mk [ttf, fit] [] none

/-- Build-time configuration errors of the pipeline validator (spec §7). -/
inductive BuildError
  | unsatisfiedDependency (stage : String) (missingKey : String)
  | duplicateProduct (key : String) (firstStage secondStage : String)
deriving DecidableEq, Repr

/-- The keys available after running a stage list on top of initially
available keys. -/
def availAfter (avail : List String) (stages : List Stage) : List String :=
  stages.foldl (fun a st => a ++ st.outputs) avail

/-- First required input of a stage missing from the available keys. -/
def firstMissing (avail : List String) (st : Stage) : Option String :=
  st.inputs.find? (fun k => !avail.contains k)

/-- Modelled from the spec: the pipeline builder/validator (spec §4.3) is part
of the C++ `Sequencer` engine, which is not under the source tree; only its
Python callers are.  Per the spec, it verifies for every stage that all of
`requiredInputs()` are a subset of the union of `producedOutputs()` of all
preceding stages (plus the keys available before the pipeline fragment), and
otherwise fails with `UnsatisfiedDependency{stage, missingKey}`. -/
def checkDeps (avail : List String) : List Stage → Option BuildError
  | [] => none
  | st :: rest =>
      match firstMissing avail st with
      | some k => some (BuildError.unsatisfiedDependency st.name k)
      | none => checkDeps (avail ++ st.outputs) rest

/-- Per-event outcome of the scheduler: terminal state plus the produced-key
set of the event's store (spec §4.4). -/
inductive Outcome
  | completed (produced : List String)
  | failed (stageName : String) (produced : List String)
deriving DecidableEq, Repr

/-- Modelled from the spec: one worker runs the stages of the validated
pipeline in order against a fresh event store, stopping at the first stage
failure (spec §4.4).  `exec st i` is the deterministic success/failure of
stage `st` on event index `i` (spec §4.2: the outcome of an event depends
only on its index, never on other events' execution order). -/
def runEventAux (exec : Stage → Nat → Bool) (i : Nat) (produced : List String) :
    List Stage → Outcome
  | [] => Outcome.completed produced
  | st :: rest =>
      if exec st i then runEventAux exec i (produced ++ st.outputs) rest
      else Outcome.failed st.name produced

/-- Modelled from the spec: run one event through the whole pipeline. -/
def runEvent (p : List Stage) (exec : Stage → Nat → Bool) (i : Nat) : Outcome :=
  runEventAux exec i [] p

/-- Modelled from the spec: the pending event indices processed by worker `w`
out of `W` workers over `n` events (events are dispatched to workers; which
worker takes which index is scheduling detail, here round-robin). -/
def workerEvents (W n w : Nat) : List Nat :=
  (List.range n).filter (fun i => i % W == w)

/-- Modelled from the spec: the scheduler (spec §4.4) runs `n` events on `W`
workers; the result lists each event index with its terminal outcome, in
completion order (workers' result lists concatenated). -/
def schedulerRun (p : List Stage) (exec : Stage → Nat → Bool) (W n : Nat) :
    List (Nat × Outcome) :=
  (List.range W).flatMap
    (fun w => (workerEvents W n w).map (fun i => (i, runEvent p exec i)))

/-- A `Sequencer` construction in a run script: the script location, the
`numThreads` value passed, and whether the pipeline run on that sequencer
contains the digitization stage (per the script's arguments; the ckf/truth
tracking runs all pass a `digiConfigFile`). -/
structure SequencerRun where
  script : String
  numThreads : Int
  hasDigitization : Bool
deriving DecidableEq, Repr

/-- The `Sequencer` constructions of `CI/physmon/physmon.py`: the truth
tracking run (line 53, `numThreads=-1`) and the three CKF variant runs
(line 80, `numThreads=1`), all of whose pipelines include digitization. -/
def physmonRuns : List SequencerRun :=
  [SequencerRun.mk "physmon truth_tracking" (-1) true,
   SequencerRun.mk "physmon ckf truth_smeared" 1 true,
   SequencerRun.mk "physmon ckf truth_estimated" 1 true,
   SequencerRun.mk "physmon ckf seeded" 1 true]

/-- The `Sequencer` constructions of `tests/test_examples.py` whose pipelines
include digitization: the three ckf-tracks tests (`numThreads=1`, with the
comment "Digitization is not thread-safe") and the two digitization example
tests (`numThreads=-1`). -/
def testDigitizationRuns : List SequencerRun :=
  [SequencerRun.mk "test_ckf_tracks_example_full_seeding" 1 true,
   SequencerRun.mk "test_ckf_tracks_example_truth_estimate" 1 true,
   SequencerRun.mk "test_ckf_tracks_example_truth_smeared" 1 true,
   SequencerRun.mk "test_digitization_example" (-1) true,
   SequencerRun.mk "test_digitization_example_input" (-1) true]

/-- All embedded sequencer constructions with digitization in their pipeline. -/
def allDigitizationRuns : List SequencerRun :=
  physmonRuns ++ testDigitizationRuns

/-- One step of a run script after it has built a sequencer: running it,
deleting it, or asserting on / reading a writer-produced output file. -/
inductive ScriptStep
  | runSeq
  | delSeq
  | inspect (file : String)
deriving DecidableEq, Repr

/-- A run script: its name and the ordered sequencer-related steps it takes. -/
structure RunScript where
  name : String
  steps : List ScriptStep
deriving DecidableEq, Repr

/-- Checks that every file inspection happens while the most recently run
sequencer has been deleted (state `true` = no sequencer has run since the
last deletion). -/
def delBeforeInspectAux : Bool → List ScriptStep → Bool
  | _, [] => true
  | _, ScriptStep.runSeq :: r => delBeforeInspectAux false r
  | _, ScriptStep.delSeq :: r => delBeforeInspectAux true r
  | deleted, ScriptStep.inspect _ :: r => deleted && delBeforeInspectAux deleted r

/-- Every output-file inspection of the script occurs only after the
sequencer that ran before it has been deleted. -/
def delBeforeInspect (s : RunScript) : Bool :=
  delBeforeInspectAux true s.steps

/-- The run scripts of `physmon.py` and `test_examples.py`, with their
`run()`/`del`/file-assertion orderings as written in the source. -/
def physmonTruthTrackingScript : RunScript :=
  RunScript.mk "physmon truth_tracking"
    [ScriptStep.runSeq, ScriptStep.delSeq,
     ScriptStep.inspect "performance_track_fitter.root"]

/-- The physmon CKF variant loop body: run, delete, then inspect. -/
def physmonCkfScript : RunScript :=
  RunScript.mk "physmon ckf variant loop"
    [ScriptStep.runSeq, ScriptStep.delSeq, ScriptStep.inspect "performance_ckf.root"]

/-- `test_fatras`: run, `del seq`, then csv and root assertions. -/
def testFatrasScript : RunScript :=
  RunScript.mk "test_fatras"
    [ScriptStep.runSeq, ScriptStep.delSeq, ScriptStep.inspect "csv",
     ScriptStep.inspect "fatras_particles_final.root", ScriptStep.inspect "hits.root"]

/-- `test_seeding`: run, `del seq`, then root and csv assertions. -/
def testSeedingScript : RunScript :=
  RunScript.mk "test_seeding"
    [ScriptStep.runSeq, ScriptStep.delSeq, ScriptStep.inspect "estimatedparams.root",
     ScriptStep.inspect "performance_seeding_trees.root", ScriptStep.inspect "csv"]

/-- `test_propagation`: run, then root and obj assertions with no `del`. -/
def testPropagationScript : RunScript :=
  RunScript.mk "test_propagation"
    [ScriptStep.runSeq, ScriptStep.inspect "propagation_steps.root",
     ScriptStep.inspect "obj"]

/-- `test_particle_gun`: run, then csv and root assertions with no `del`. -/
def testParticleGunScript : RunScript :=
  RunScript.mk "test_particle_gun"
    [ScriptStep.runSeq, ScriptStep.inspect "csv", ScriptStep.inspect "particles.root"]

/-- `test_material_mapping`: first run then `del s` then assertions; then a
second sequencer is run for validation and its output asserted with no `del`. -/
def testMaterialMappingScript : RunScript :=
  RunScript.mk "test_material_mapping"
    [ScriptStep.runSeq, ScriptStep.delSeq, ScriptStep.inspect "material-map.json",
     ScriptStep.inspect "material-maps_tracks.root", ScriptStep.runSeq,
     ScriptStep.inspect "propagation-material.root"]

/-- `test_digitization_example`: run, then root and csv assertions, no `del`. -/
def testDigitizationExampleScript : RunScript :=
  RunScript.mk "test_digitization_example"
    [ScriptStep.runSeq, ScriptStep.inspect "measurements.root", ScriptStep.inspect "csv"]

/-- `test_digitization_example_input`: the particle-gun sequencer runs, its
output file is hashed without a `del`, then the digitization sequencer runs
and its outputs are asserted without a `del`. -/
def testDigitizationExampleInputScript : RunScript :=
  RunScript.mk "test_digitization_example_input"
    [ScriptStep.runSeq, ScriptStep.inspect "ptcl/particles.root", ScriptStep.runSeq,
     ScriptStep.inspect "measurements.root", ScriptStep.inspect "csv"]

/-- The three `test_ckf_tracks_example_*` tests: run, `del s`, then csv and
root assertions. -/
def testCkfTracksScript : RunScript :=
  RunScript.mk "test_ckf_tracks_example (all three variants)"
    [ScriptStep.runSeq, ScriptStep.delSeq, ScriptStep.inspect "csv",
     ScriptStep.inspect "performance_ckf.root", ScriptStep.inspect "trackstates_ckf.root",
     ScriptStep.inspect "tracksummary_ckf.root"]

/-- All embedded run scripts that run a sequencer and inspect writer output. -/
def allRunScripts : List RunScript :=
  [physmonTruthTrackingScript, physmonCkfScript, testFatrasScript, testSeedingScript,
   testPropagationScript, testParticleGunScript, testMaterialMappingScript,
   testDigitizationExampleScript, testDigitizationExampleInputScript,
   testCkfTracksScript]

/-- Stage class names that belong to exactly one seeding variant branch of
`addSeeding` (the `TruthSeedSelector`, `SpacePointMaker`, estimation stage and
writers are shared between branches and excluded). -/
def seedingVariantMarkers : List String :=
  ["ParticleSmearing", "TruthTrackFinder", "SeedingAlgorithm",
   "SeedingOrthogonalAlgorithm"]

/-- Stage class names that belong to exactly one vertex-finder branch of
`addVertexFitting`. -/
def vertexVariantMarkers : List String :=
  ["TruthVertexFinder", "IterativeVertexFinderAlgorithm",
   "AdaptiveMultiVertexFinderAlgorithm"]

/-- How many variant-specific seeding stages a pipeline contains. -/
def seedingVariantCount (stages : List Stage) : Nat :=
  stages.countP (fun st => seedingVariantMarkers.contains st.name)

/-- How many variant-specific vertex-finder stages a pipeline contains. -/
def vertexVariantCount (stages : List Stage) : Nat :=
  stages.countP (fun st => vertexVariantMarkers.contains st.name)

/-- Modelled from the spec: `runCKFTracks` (`Examples/Scripts/Python/ckf_tracks.py`)
is not under the source tree; `physmon.py` only imports it.  Per the spec's
variant-selector pattern (§4.5) and physmon's own comment
"if first is true, second is ignored", its `truthSmearedSeeded` /
`truthEstimatedSeeded` flags select `TruthSmeared`, else `TruthEstimated`,
else the default seeding algorithm for its `addSeeding` call. -/
def variantToSeedingAlg (truthSmeared truthEstimated : Bool) : SeedingAlgorithmArg :=
  if truthSmeared then SeedingAlgorithmArg.valid SeedingAlgorithm.TruthSmeared
  else if truthEstimated then SeedingAlgorithmArg.valid SeedingAlgorithm.TruthEstimated
  else SeedingAlgorithmArg.valid SeedingAlgorithm.Default

/-- The `(truthSmeared, truthEstimated, label)` triples of physmon's
module-level variant loop (lines 75-79). -/
def physmonVariantFlags : List (Bool × Bool × String) :=
  [(true, false, "truth_smeared"), (false, true, "truth_estimated"),
   (false, false, "seeded")]

/-- The reconstruction stage list physmon assembles for one variant triple: a
fresh sequencer receives the seeding stages of the selected variant followed
by the CKF track-finding stages (`runCKFTracks` composes `addSeeding` and
`addCKFTracks`; output directory set, CSV output disabled). -/
def physmonVariantPipeline (v : Bool × Bool × String) : List Stage :=
  (addSeeding (some "odd-seeding-config.json") (variantToSeedingAlg v.1 v.2.1)
    (some "TruthSeedRanges") "particleSmearingSigmas" "seedfinderConfig"
    "trackParamsEstimationConfig" "particles_initial" (some "outdir") false).stages ++
  (addCKFTracks "ckfPerformanceConfig" none false (some "outdir") true
    "truth_seeds_selected").stages

/-- The three per-variant pipelines physmon builds, one fresh sequencer each. -/
def physmonVariantPipelines : List (List Stage) :=
  physmonVariantFlags.map physmonVariantPipeline

/-- Whiteboard keys produced by the simulation/digitization stages that run
before `addSeeding` in the reconstruction pipelines (particle reading and
selection, fatras simulation and digitization). -/
def upstreamRecoKeys : List String :=
  ["particles_input", "particles_initial", "particles_selected", "simhits",
   "measurements", "sourcelinks", "measurement_particles_map",
   "measurement_simhits_map"]

/-- Whiteboard keys produced before `addVertexFitting` in the vertexing
pipelines (particle reading, selection and smearing). -/
def upstreamVertexKeys : List String :=
  ["particles_input", "particles_selected", "trackparameters"]

/-- The full reconstruction pipeline fragment for one valid seeding variant:
the `addSeeding` stages followed by the `addCKFTracks` stages, with output
directories set. -/
def recoPipeline (v : SeedingAlgorithm) : List Stage :=
  (addSeeding (some "geoSelection.json") (SeedingAlgorithmArg.valid v)
    (some "TruthSeedRanges") "particleSmearingSigmas" "seedfinderConfig"
    "trackParamsEstimationConfig" "particles_initial" (some "outdir") false).stages ++
  (addCKFTracks "ckfPerformanceConfig" (some "csvdir") false (some "outdir") true
    "truth_seeds_selected").stages

/-- The vertexing pipeline fragment for one valid finder, with output set. -/
def vertexPipeline (f : VertexFinder) : List Stage :=
  (addVertexFitting (some "outdir") false "particles_input" "trackparameters"
    (VertexFinderArg.valid f)).stages

/-- The concrete three-stage pipeline of the spec's testable-properties
section: a reader producing `"raw"`, an algorithm deriving `"derived"` from
it, and a writer consuming `"derived"`. -/
def demoPipeline : List Stage :=
  [Stage.mk "gen" StageKind.reader [] ["raw"] [],
   Stage.mk "transform" StageKind.algorithm ["raw"] ["derived"] [],
   Stage.mk "sink" StageKind.writer ["derived"] [] []]

/-- A per-stage execution behaviour where every stage succeeds. -/
def demoExec : Stage → Nat → Bool := fun _ _ => true

/-- Claim C8: `addKalmanTracks` with `directNavigation=True` raises `NameError`
(on the unbound name `outputSimHits`) before the surface-sorting algorithm is
added, while with the default `directNavigation=False` the call succeeds and
adds the truth track finder and the fitting algorithm. -/
theorem addKalmanTracks_directNavigation_name_error :
    (addKalmanTracks true).error = some (PyError.nameError "outputSimHits") ∧
    "SurfaceSortingAlgorithm" ∉ (addKalmanTracks true).stages.map Stage.name ∧
    (addKalmanTracks false).error = none ∧
    (addKalmanTracks false).stages.map Stage.name =
      ["TruthTrackFinder", "TrackFittingAlgorithm"] := by decide

/-- Claim C6, counterexample: the physmon truth-tracking run contains the
digitization stage yet its sequencer is constructed with `numThreads=-1`,
not `numThreads=1`. -/
theorem physmon_truth_tracking_not_single_threaded :
    SequencerRun.mk "physmon truth_tracking" (-1) true ∈ allDigitizationRuns ∧
    (SequencerRun.mk "physmon truth_tracking" (-1) true).hasDigitization = true ∧
    ¬(SequencerRun.mk "physmon truth_tracking" (-1) true).numThreads = 1 := by decide

/-- Claim C6, amended: among the sequencer constructions whose pipelines
contain digitization, the three physmon CKF variant runs and the three
ckf-tracks example tests use `numThreads=1`, but the physmon truth-tracking
run and the two digitization example tests use `numThreads=-1`, so not every
run containing the thread-unsafe digitization stage is executed with W=1. -/
theorem digitization_runs_thread_counts :
    allDigitizationRuns.all (fun r => r.hasDigitization) = true ∧
    (allDigitizationRuns.filter (fun r => r.numThreads == 1)).map SequencerRun.script =
      ["physmon ckf truth_smeared", "physmon ckf truth_estimated",
       "physmon ckf seeded", "test_ckf_tracks_example_full_seeding",
       "test_ckf_tracks_example_truth_estimate",
       "test_ckf_tracks_example_truth_smeared"] ∧
    (allDigitizationRuns.filter (fun r => r.numThreads != 1)).map SequencerRun.script =
      ["physmon truth_tracking", "test_digitization_example",
       "test_digitization_example_input"] := by decide

/-- Claim C7, counterexample: `test_propagation` asserts on the writer-produced
`propagation_steps.root` immediately after `run()` returns, with no `del` of
the sequencer before the inspection. -/
theorem test_propagation_inspects_without_del :
    testPropagationScript ∈ allRunScripts ∧
    delBeforeInspect testPropagationScript = false := by decide

/-- Claim C7, amended: the physmon runs, `test_fatras`, `test_seeding`, the
first half of `test_material_mapping` and the three ckf-tracks tests delete
the sequencer after `run()` before inspecting output files, but
`test_propagation`, `test_particle_gun`, the material-validation half of
`test_material_mapping` and the two digitization example tests inspect
writer-produced output files without deleting the sequencer first. -/
theorem run_scripts_del_before_inspect_partition :
    (allRunScripts.filter (fun s => delBeforeInspect s)).map RunScript.name =
      ["physmon truth_tracking", "physmon ckf variant loop", "test_fatras",
       "test_seeding", "test_ckf_tracks_example (all three variants)"] ∧
    (allRunScripts.filter (fun s => !delBeforeInspect s)).map RunScript.name =
      ["test_propagation", "test_particle_gun", "test_material_mapping",
       "test_digitization_example", "test_digitization_example_input"] := by decide

/-- Claim C4, counterexample: calling `addSeeding` with a selector outside the
`SeedingAlgorithm` enumeration does not abort immediately with a raised
configuration error carrying a specific message: the space-point maker has
already been added, a fatal message is only logged, and the abort is an
`UnboundLocalError` on `inputSeeds` while constructing the estimation stage. -/
theorem addSeeding_invalid_selector_not_config_error :
    (addSeeding none (SeedingAlgorithmArg.invalid "badValue") (some "tsr") "ps"
        "sf" "tp" "particles_initial" none false).error =
      some (PyError.nameError "inputSeeds") ∧
    isRuntimeError (addSeeding none (SeedingAlgorithmArg.invalid "badValue")
        (some "tsr") "ps" "sf" "tp" "particles_initial" none false).error = false ∧
    (addSeeding none (SeedingAlgorithmArg.invalid "badValue") (some "tsr") "ps"
        "sf" "tp" "particles_initial" none false).effects =
      [Effect.fatalLog "unknown seedingAlgorithm"] ∧
    (addSeeding none (SeedingAlgorithmArg.invalid "badValue") (some "tsr") "ps"
        "sf" "tp" "particles_initial" none false).stages.map Stage.name =
      ["TruthSeedSelector", "SpacePointMaker"] := by decide

/-- Claim C4, amended: an invalid `vertexFinder` makes `addVertexFitting`
raise `RuntimeError("Invalid finder argument")` before any stage is added;
an invalid `seedingAlgorithm` makes `addSeeding` log a fatal
"unknown seedingAlgorithm" message and then abort assembly with an
`UnboundLocalError` on `inputSeeds`, after the space-point maker has already
been added.  In both cases assembly aborts before any event runs. -/
theorem invalid_variant_selector_aborts_assembly :
    (∀ (v : String) (od : Option String) (ode : Bool) (ap tp : String),
        addVertexFitting od ode ap tp (VertexFinderArg.invalid v) =
          CallResult.mk [] []
            (some (PyError.runtimeError "Invalid finder argument"))) ∧
    (∀ (v : String) (g tsr : Option String) (ps sf tp ip : String)
        (od : Option String) (ode : Bool),
        (addSeeding g (SeedingAlgorithmArg.invalid v) tsr ps sf tp ip od ode).error =
            some (PyError.nameError "inputSeeds") ∧
        Effect.fatalLog "unknown seedingAlgorithm" ∈
          (addSeeding g (SeedingAlgorithmArg.invalid v) tsr ps sf tp ip od ode).effects ∧
        "SpacePointMaker" ∈
          (addSeeding g (SeedingAlgorithmArg.invalid v) tsr ps sf tp ip od
            ode).stages.map Stage.name) := by
  constructor
  · intro v od ode ap tp
    rfl
  · intro v g tsr ps sf tp ip od ode
    cases tsr <;> simp [addSeeding]

/-- Claim C9: with `seedingAlgorithm = TruthSmeared`, the stages added by
`addSeeding` do not depend on `geoSelectionConfigFile`, `seedfinderConfigArg`
or `trackParamsEstimationConfig` (two calls differing only in those arguments
return identical results), and no performance writers and no directory
creation happen even when `outputDirRoot` is non-None, since the writer block
lies entirely in the non-TruthSmeared branch. -/
theorem truth_smeared_seeding_independence :
    (∀ (g g' tsr : Option String) (ps sf sf' tp tp' ip : String)
        (od : Option String) (ode : Bool),
        addSeeding g (SeedingAlgorithmArg.valid SeedingAlgorithm.TruthSmeared)
          tsr ps sf tp ip od ode =
        addSeeding g' (SeedingAlgorithmArg.valid SeedingAlgorithm.TruthSmeared)
          tsr ps sf' tp' ip od ode) ∧
    (∀ (g tsr : Option String) (ps sf tp ip : String) (od : Option String)
        (ode : Bool),
        writersOf (addSeeding g (SeedingAlgorithmArg.valid
          SeedingAlgorithm.TruthSmeared) tsr ps sf tp ip od ode).stages = [] ∧
        (addSeeding g (SeedingAlgorithmArg.valid SeedingAlgorithm.TruthSmeared)
          tsr ps sf tp ip od ode).effects = []) := by
  constructor
  · intro g g' tsr ps sf sf' tp tp' ip od ode
    rfl
  · intro g tsr ps sf tp ip od ode
    cases tsr <;> exact ⟨rfl, rfl⟩

/-- Claim C10, counterexample: `addSeeding` with `TruthSmeared` and a
non-None, not-yet-existing `outputDirRoot` appends no writer stage and
creates no directory, so a non-None output directory does not always get
created with the writers appended. -/
theorem truth_smeared_output_dir_no_writers :
    writersOf (addSeeding (some "geo.json") (SeedingAlgorithmArg.valid
        SeedingAlgorithm.TruthSmeared) (some "tsr") "ps" "sf" "tp"
        "particles_initial" (some "outdir") false).stages = [] ∧
    (addSeeding (some "geo.json") (SeedingAlgorithmArg.valid
        SeedingAlgorithm.TruthSmeared) (some "tsr") "ps" "sf" "tp"
        "particles_initial" (some "outdir") false).effects = [] ∧
    (addSeeding (some "geo.json") (SeedingAlgorithmArg.valid
        SeedingAlgorithm.TruthSmeared) (some "tsr") "ps" "sf" "tp"
        "particles_initial" (some "outdir") false).error = none := by decide

/-- Claim C10, amended: with `outputDirRoot=None` (and `outputDirCsv=None` for
`addCKFTracks`) none of the three functions appends a writer stage or creates
a directory, and the algorithm stages added are the same as for a call with
non-None output directories; the non-None call additionally creates each
missing directory and appends the writers, except that the TruthSmeared
branch of `addSeeding` skips the writer block entirely (no writers and no
directory creation even with `outputDirRoot` non-None). -/
theorem output_dir_none_frame :
    (∀ (g : Option String) (alg : SeedingAlgorithmArg) (tsr : Option String)
        (ps sf tp ip : String) (ode : Bool),
        writersOf (addSeeding g alg tsr ps sf tp ip none ode).stages = [] ∧
        hasMkdir (addSeeding g alg tsr ps sf tp ip none ode).effects = false) ∧
    (∀ (pc sel : String) (oce ore : Bool),
        writersOf (addCKFTracks pc none oce none ore sel).stages = [] ∧
        hasMkdir (addCKFTracks pc none oce none ore sel).effects = false) ∧
    (∀ (ode : Bool) (ap tp : String) (vf : VertexFinderArg),
        writersOf (addVertexFitting none ode ap tp vf).stages = [] ∧
        hasMkdir (addVertexFitting none ode ap tp vf).effects = false) ∧
    (∀ (g : Option String) (alg : SeedingAlgorithmArg) (tsr : Option String)
        (ps sf tp ip d : String) (ode ode' : Bool),
        algorithmsOf (addSeeding g alg tsr ps sf tp ip none ode).stages =
        algorithmsOf (addSeeding g alg tsr ps sf tp ip (some d) ode').stages) ∧
    (∀ (pc sel cd rd : String) (oce ore oce' ore' : Bool),
        algorithmsOf (addCKFTracks pc none oce none ore sel).stages =
        algorithmsOf (addCKFTracks pc (some cd) oce' (some rd) ore' sel).stages) ∧
    (∀ (ode ode' : Bool) (ap tp d : String) (vf : VertexFinderArg),
        algorithmsOf (addVertexFitting none ode ap tp vf).stages =
        algorithmsOf (addVertexFitting (some d) ode' ap tp vf).stages) ∧
    (∀ (pc sel cd rd : String) (oce ore : Bool),
        (writersOf (addCKFTracks pc (some cd) oce (some rd) ore sel).stages).map
            Stage.name =
          ["RootTrajectoryStatesWriter", "RootTrajectorySummaryWriter",
           "CKFPerformanceWriter", "CsvMultiTrajectoryWriter"] ∧
        (addCKFTracks pc (some cd) oce (some rd) ore sel).effects =
          (if ore then [] else [Effect.mkdir rd]) ++
          (if oce then [] else [Effect.mkdir cd])) ∧
    (∀ (ode : Bool) (ap tp d : String) (f : VertexFinder),
        (writersOf (addVertexFitting (some d) ode ap tp
            (VertexFinderArg.valid f)).stages).map Stage.name =
          ["RootVertexPerformanceWriter"] ∧
        (hasMkdir (addVertexFitting (some d) ode ap tp
            (VertexFinderArg.valid f)).effects = !ode)) ∧
    (∀ (g : Option String) (v : SeedingAlgorithm) (cfg ps sf tp ip d : String)
        (ode : Bool),
        (writersOf (addSeeding g (SeedingAlgorithmArg.valid v) (some cfg) ps sf
            tp ip (some d) ode).stages).map Stage.name =
          (if v = SeedingAlgorithm.TruthSmeared then []
           else ["TrackFinderPerformanceWriter", "SeedingPerformanceWriter",
                 "RootTrackParameterWriter"]) ∧
        hasMkdir (addSeeding g (SeedingAlgorithmArg.valid v) (some cfg) ps sf tp
            ip (some d) ode).effects =
          (if v = SeedingAlgorithm.TruthSmeared then false else !ode)) := by
  refine ⟨?_, ?_, ?_, ?_, ?_, ?_, ?_, ?_, ?_⟩
  · intro g alg tsr ps sf tp ip ode
    rcases alg with a | s
    · cases a <;> cases tsr <;> exact ⟨rfl, rfl⟩
    · cases tsr <;> exact ⟨rfl, rfl⟩
  · intro pc sel oce ore
    exact ⟨rfl, rfl⟩
  · intro ode ap tp vf
    rcases vf with f | s
    · cases f <;> exact ⟨rfl, rfl⟩
    · exact ⟨rfl, rfl⟩
  · intro g alg tsr ps sf tp ip d ode ode'
    rcases alg with a | s
    · cases a <;> cases tsr <;> cases ode' <;> rfl
    · cases tsr <;> rfl
  · intro pc sel cd rd oce ore oce' ore'
    cases oce' <;> cases ore' <;> rfl
  · intro ode ode' ap tp d vf
    rcases vf with f | s
    · cases f <;> cases ode' <;>
        simp [addVertexFitting, algorithmsOf, List.filter_append]
    · rfl
  · intro pc sel cd rd oce ore
    cases oce <;> cases ore <;>
      simp [addCKFTracks, writersOf, ckfTrackFinderStage, ckfTrackFinderConfig]
  · intro ode ap tp d f
    cases f <;> cases ode <;>
      simp [addVertexFitting, writersOf, hasMkdir]
  · intro g v cfg ps sf tp ip d ode
    cases v <;> cases ode <;>
      simp [addSeeding, writersOf, hasMkdir]

/-- Claim C5: every call of `addSeeding` (resp. `addVertexFitting`) adds the
stages of at most one branch of its variant `if`/`elif` chain, and the physmon
run script builds one fresh sequencer per variant triple, each of whose
pipelines contains exactly one variant-specific seeding stage — never the
stages of two variants simultaneously. -/
theorem single_variant_branch_per_pipeline :
    (∀ (g : Option String) (alg : SeedingAlgorithmArg) (tsr : Option String)
        (ps sf tp ip : String) (od : Option String) (ode : Bool),
        seedingVariantCount (addSeeding g alg tsr ps sf tp ip od ode).stages ≤ 1) ∧
    (∀ (od : Option String) (ode : Bool) (ap tp : String) (vf : VertexFinderArg),
        vertexVariantCount (addVertexFitting od ode ap tp vf).stages ≤ 1) ∧
    physmonVariantPipelines.length = physmonVariantFlags.length ∧
    physmonVariantPipelines.map seedingVariantCount = [1, 1, 1] := by
  refine ⟨?_, ?_, rfl, by decide⟩
  · intro g alg tsr ps sf tp ip od ode
    rcases alg with a | s
    · cases a <;> cases tsr <;> cases od <;>
        first
          | exact Nat.le_refl 1
          | exact Nat.zero_le 1
    · cases tsr <;> cases od <;>
        first
          | exact Nat.le_refl 1
          | exact Nat.zero_le 1
  · intro od ode ap tp vf
    rcases vf with f | s
    · cases f <;> cases od <;> exact Nat.le_refl 1
    · cases od <;> exact Nat.zero_le 1

/-- Claim C1: for every valid seeding variant, a completed `addSeeding` call
adds exactly one stage producing the shared key `"estimatedparameters"` — the
`ParticleSmearing` for TruthSmeared and the `TrackParamsEstimationAlgorithm`
for every other variant — and the downstream track-finding stage added first
by every `addCKFTracks` call is one and the same stage, consuming exactly
`"estimatedparameters"` as its initial track parameters input. -/
theorem estimatedparameters_single_producer
    (v : SeedingAlgorithm) (g tsr : Option String) (ps sf tp ip : String)
    (od : Option String) (ode : Bool)
    (h : (addSeeding g (SeedingAlgorithmArg.valid v) tsr ps sf tp ip od
        ode).error = none) :
    (producersOf "estimatedparameters"
        (addSeeding g (SeedingAlgorithmArg.valid v) tsr ps sf tp ip od
          ode).stages).map Stage.name =
      [if v = SeedingAlgorithm.TruthSmeared then "ParticleSmearing"
       else "TrackParamsEstimationAlgorithm"] ∧
    (∀ (pc sel : String) (oc or : Option String) (oce ore : Bool),
        (addCKFTracks pc oc oce or ore sel).stages.head? =
          some ckfTrackFinderStage) ∧
    ckfTrackFinderConfig.inputInitialTrackParameters = "estimatedparameters" ∧
    "estimatedparameters" ∈ ckfTrackFinderStage.inputs := by
  refine ⟨?_, ?_, rfl, by decide⟩
  · cases v <;> cases tsr <;> cases od <;>
      first
        | rfl
        | exact nomatch h
  · intro pc sel oc or oce ore
    rcases oc with _ | c <;> rcases or with _ | r <;> rfl

/-- Witness for `estimatedparameters_single_producer` at the default seeding
variant with an output directory. -/
theorem estimatedparameters_single_producer_witness :
    (producersOf "estimatedparameters"
        (addSeeding (some "geo.json") (SeedingAlgorithmArg.valid
          SeedingAlgorithm.Default) (some "tsr") "ps" "sf" "tp"
          "particles_initial" (some "outdir") false).stages).map Stage.name =
      [if SeedingAlgorithm.Default = SeedingAlgorithm.TruthSmeared
       then "ParticleSmearing" else "TrackParamsEstimationAlgorithm"] ∧
    (∀ (pc sel : String) (oc or : Option String) (oce ore : Bool),
        (addCKFTracks pc oc oce or ore sel).stages.head? =
          some ckfTrackFinderStage) ∧
    ckfTrackFinderConfig.inputInitialTrackParameters = "estimatedparameters" ∧
    "estimatedparameters" ∈ ckfTrackFinderStage.inputs :=
  estimatedparameters_single_producer SeedingAlgorithm.Default (some "geo.json")
    (some "tsr") "ps" "sf" "tp" "particles_initial" (some "outdir") false
    (by decide)

/-- Soundness of the dependency validator: for any initially available keys
and any stage list, either validation fails with `UnsatisfiedDependency`, or
it succeeds and every stage's required inputs are contained in the keys
available after all preceding stages. -/
theorem checkDeps_cases (P : List Stage) : ∀ (avail : List String),
    (∃ st k, checkDeps avail P = some (BuildError.unsatisfiedDependency st k)) ∨
    (checkDeps avail P = none ∧ ∀ (pre : List Stage) (st : Stage)
        (post : List Stage), P = pre ++ st :: post →
        ∀ k ∈ st.inputs, k ∈ availAfter avail pre) := by
  induction P with
  | nil =>
      intro avail
      right
      refine ⟨rfl, ?_⟩
      intro pre st post heq
      exact absurd heq (by simp)
  | cons st rest ih =>
      intro avail
      cases hm : firstMissing avail st with
      | some k =>
          left
          exact ⟨st.name, k, by simp [checkDeps, hm]⟩
      | none =>
          rcases ih (avail ++ st.outputs) with ⟨s, k, hk⟩ | ⟨hnone, hprop⟩
          · left
            exact ⟨s, k, by simp [checkDeps, hm, hk]⟩
          · right
            refine ⟨by simp [checkDeps, hm, hnone], ?_⟩
            intro pre st' post heq k hk
            cases pre with
            | nil =>
                simp only [List.nil_append, List.cons.injEq] at heq
                have hk' : k ∈ st.inputs := heq.1 ▸ hk
                have := List.find?_eq_none.mp hm k hk'
                simpa [availAfter] using this
            | cons p pre' =>
                simp only [List.cons_append, List.cons.injEq] at heq
                have hrest : rest = pre' ++ st' :: post := heq.2
                have := hprop pre' st' post hrest k hk
                have hav : availAfter avail (p :: pre') =
                    availAfter (avail ++ p.outputs) pre' := rfl
                rw [hav, ← heq.1]
                exact this

/-- Claim C2: for every pipeline and every stage in it, every required input
key is contained in the union of the produced outputs of the preceding stages
(on top of the initially available keys), or the build fails with
`UnsatisfiedDependency`; and the concrete pipelines assembled by `addSeeding`
(followed by `addCKFTracks`) for each seeding variant, and by
`addVertexFitting` for each vertex finder, all validate against the keys
their upstream stages produce. -/
theorem pipeline_dependency_validation :
    (∀ (avail : List String) (P : List Stage),
        (∃ st k, checkDeps avail P = some (BuildError.unsatisfiedDependency st k)) ∨
        (checkDeps avail P = none ∧ ∀ (pre : List Stage) (st : Stage)
            (post : List Stage), P = pre ++ st :: post →
            ∀ k ∈ st.inputs, k ∈ availAfter avail pre)) ∧
    (∀ v : SeedingAlgorithm,
        checkDeps upstreamRecoKeys (recoPipeline v) = none) ∧
    (∀ f : VertexFinder,
        checkDeps upstreamVertexKeys (vertexPipeline f) = none) := by
  refine ⟨fun avail P => checkDeps_cases P avail, ?_, ?_⟩
  · intro v
    cases v <;> decide
  · intro f
    cases f <;> decide

/-- Witness for `pipeline_dependency_validation`: in the TruthSmeared
pipeline the CKF track finder's `"estimatedparameters"` input is available
after the two seeding stages preceding it. -/
theorem pipeline_dependency_validation_witness :
    "estimatedparameters" ∈ availAfter upstreamRecoKeys
      (List.take 2 (recoPipeline SeedingAlgorithm.TruthSmeared)) := by
  rcases pipeline_dependency_validation.1 upstreamRecoKeys
      (recoPipeline SeedingAlgorithm.TruthSmeared) with ⟨st, k, hbad⟩ | ⟨_, hgood⟩
  · rw [pipeline_dependency_validation.2.1 SeedingAlgorithm.TruthSmeared] at hbad
    exact nomatch hbad
  · exact hgood (List.take 2 (recoPipeline SeedingAlgorithm.TruthSmeared))
      ckfTrackFinderStage
      (List.drop 3 (recoPipeline SeedingAlgorithm.TruthSmeared))
      (by decide) "estimatedparameters" (by decide)

/-- Membership in one worker's event list. -/
theorem workerEvents_mem (W n w i : Nat) :
    i ∈ workerEvents W n w ↔ i < n ∧ i % W = w := by
  simp [workerEvents, List.mem_filter, List.mem_range, and_comm]

/-- The scheduler's result is the per-index outcome map over the workers'
concatenated index lists. -/
theorem schedulerRun_eq_map (p : List Stage) (exec : Stage → Nat → Bool)
    (W n : Nat) :
    schedulerRun p exec W n =
      ((List.range W).flatMap (workerEvents W n)).map
        (fun i => (i, runEvent p exec i)) := by
  simp [schedulerRun, List.map_flatMap]

/-- The indices processed across all `W` workers are a permutation of the
event range, for any positive worker count. -/
theorem workerIndices_perm (W n : Nat) (hW : 0 < W) :
    ((List.range W).flatMap (workerEvents W n)).Perm (List.range n) := by
  have hnd : ((List.range W).flatMap (workerEvents W n)).Nodup := by
    refine List.nodup_flatMap.mpr ⟨fun w _ => (List.nodup_range n).filter _, ?_⟩
    refine (List.nodup_range W).imp ?_
    intro a b hab i hia hib
    rw [workerEvents_mem] at hia hib
    exact hab (hia.2.symm.trans hib.2)
  refine (List.perm_ext_iff_of_nodup hnd (List.nodup_range n)).mpr ?_
  intro i
  constructor
  · intro hi
    rcases List.mem_flatMap.mp hi with ⟨w, _, hw⟩
    exact List.mem_range.mpr ((workerEvents_mem W n w i).mp hw).1
  · intro hi
    refine List.mem_flatMap.mpr ⟨i % W, List.mem_range.mpr (Nat.mod_lt i hW), ?_⟩
    exact (workerEvents_mem W n (i % W) i).mpr ⟨List.mem_range.mp hi, rfl⟩

/-- Claim C3 (scheduler modelled from the spec): running the same pipeline
over the same event count with worker parallelism W=1 and W=4 yields the same
set of per-event outcomes — the same (event index, terminal state with
produced-key set) pairs up to completion order — and each event's outcome is
the deterministic function of its index alone. -/
theorem scheduler_outcomes_independent_of_worker_count
    (p : List Stage) (exec : Stage → Nat → Bool) (n : Nat) :
    (schedulerRun p exec 4 n).Perm (schedulerRun p exec 1 n) ∧
    ∀ pr ∈ schedulerRun p exec 4 n, pr.2 = runEvent p exec pr.1 := by
  constructor
  · rw [schedulerRun_eq_map, schedulerRun_eq_map]
    exact ((workerIndices_perm 4 n (by decide)).trans
      (workerIndices_perm 1 n (by decide)).symm).map _
  · intro pr hpr
    rw [schedulerRun_eq_map] at hpr
    rcases List.mem_map.mp hpr with ⟨i, _, rfl⟩
    rfl

/-- Witness for `scheduler_outcomes_independent_of_worker_count` on the
spec's concrete reader/algorithm/writer pipeline with 5 events. -/
theorem scheduler_outcomes_witness :
    (schedulerRun demoPipeline demoExec 4 5).Perm
      (schedulerRun demoPipeline demoExec 1 5) ∧
    (0, runEvent demoPipeline demoExec 0).2 = runEvent demoPipeline demoExec 0 :=
  ⟨(scheduler_outcomes_independent_of_worker_count demoPipeline demoExec 5).1,
   (scheduler_outcomes_independent_of_worker_count demoPipeline demoExec 5).2
     (0, runEvent demoPipeline demoExec 0) (by decide)⟩

end ActsReco
